import Mathlib

/-!
Verification development for the E4E backend (src/index.js): an Express
service exposing user/event CRUD endpoints over a document database and an
auth service, plus an image-upload proxy.  The JavaScript handlers are
shallowly embedded below: request bodies are association lists of JS
values, the document database is an in-memory association list per
collection, and the external collaborators (token verification, account
creation, image host) are oracle functions supplied as parameters.
-/

namespace E4E

/-! ### JavaScript string primitives, modelled on character lists -/

/-- Whitespace test used by the model of JS `String.prototype.trim`. -/
def isWS (c : Char) : Bool := c.isWhitespace

/-- Model of JS `s.trim()`: strip leading and trailing whitespace. -/
def jsTrim (s : String) : String :=
  String.mk (((s.toList.dropWhile isWS).reverse.dropWhile isWS).reverse)

/-- Model of JS `s.startsWith(p)`. -/
def jsStartsWith (s p : String) : Bool :=
  decide (s.toList.take p.toList.length = p.toList)

/-- Model of JS `s.slice(n)` for a nonnegative `n`. -/
def jsDrop (s : String) (n : Nat) : String := String.mk (s.toList.drop n)

/-- Model of JS `s.includes("@")`. -/
def jsIncludesAt (s : String) : Bool := s.toList.contains '@'

/-- Model of JS `s.length`. -/
def jsLength (s : String) : Nat := s.toList.length

/-- Model of JS `s.split("@")[0]`: the part of `s` before the first `@`
(the whole string when there is no `@`). -/
def localPart (e : String) : String :=
  String.mk (e.toList.takeWhile (fun c => c ≠ '@'))

/-- Model of JS `parseInt(s, 10)`: skip leading whitespace, optional sign,
then the longest digit run; `none` models `NaN`. -/
def parseIntJS (s : String) : Option Int :=
  let cs := s.toList.dropWhile isWS
  let signAndRest : Int × List Char :=
    match cs with
    | '-' :: t => (-1, t)
    | '+' :: t => (1, t)
    | _ => (1, cs)
  let ds := signAndRest.2.takeWhile Char.isDigit
  if ds.isEmpty then none
  else some (signAndRest.1 * (ds.foldl (fun a c => a * 10 + ((c.toNat : Int) - 48)) 0))

/-! ### JS values and truthiness -/

/-- A JSON-body field value as the handlers see it: either a JS string or
anything else (absent/undefined/null/number/object), which uniformly fails
the `typeof x === "string"` test. -/
inductive JsVal where
  | jstr (s : String)
  | jother
deriving DecidableEq, Repr

/-- `isNonEmptyString` from src/index.js lines 36-38:
`typeof x === "string" && x.trim().length > 0`. -/
def isNonEmptyString : JsVal → Bool
  | .jstr s => decide (0 < jsLength (jsTrim s))
  | .jother => false

/-- The string content of a JS value (only used after a string test). -/
def asStr : JsVal → String
  | .jstr s => s
  | .jother => ""

/-- JS string truthiness: `none` stands for a falsy value (empty string),
`some s` for the truthy string `s`. -/
def strOrNone (s : String) : Option String :=
  if s = "" then none else some s

/-! ### Documents, collections, requests, responses -/

/-- A user profile document, as written by registration / profile update. -/
structure UserDoc where
  name : String
  email : String
  createdAt : Nat
  updatedAt : Option Nat
deriving DecidableEq, Repr

/-- An event document, as written by event creation / update.  `none` in an
optional field models an explicitly stored `null`. -/
structure EventDoc where
  title : String
  location : Option String
  description : Option String
  imageUrl : Option String
  imageDeleteUrl : Option String
  ownerUid : String
  ownerName : String
  ownerEmail : Option String
  createdAt : Nat
  updatedAt : Option Nat
deriving DecidableEq, Repr

/-- The two Firestore collections. -/
structure World where
  users : List (String × UserDoc)
  events : List (String × EventDoc)
deriving DecidableEq, Repr

/-- Fetch a document by id (`db.collection(c).doc(k).get()`). -/
def getDoc {α : Type} : List (String × α) → String → Option α
  | [], _ => none
  | p :: t, k => if p.1 = k then some p.2 else getDoc t k

/-- Overwrite the document stored under an id (`ref.update(...)` after the
handler has checked existence). -/
def setDoc {α : Type} : List (String × α) → String → α → List (String × α)
  | [], _, _ => []
  | p :: t, k, v => if p.1 = k then (k, v) :: setDoc t k v else p :: setDoc t k v

/-- Create-or-replace a document (`.doc(k).set(...)`). -/
def putDoc {α : Type} (l : List (String × α)) (k : String) (v : α) :
    List (String × α) :=
  match getDoc l k with
  | some _ => setDoc l k v
  | none => l ++ [(k, v)]

/-- Remove a document (`ref.delete()`). -/
def delDoc {α : Type} : List (String × α) → String → List (String × α)
  | [], _ => []
  | p :: t, k => if p.1 = k then delDoc t k else p :: delDoc t k

/-- JSON values, for response bodies. -/
inductive Json where
  | null
  | bool (b : Bool)
  | num (n : Int)
  | str (s : String)
  | arr (xs : List Json)
  | obj (kvs : List (String × Json))

/-- An HTTP response: status code and JSON body. -/
structure Response where
  status : Nat
  body : Json

/-- An incoming HTTP request, reduced to the parts the handlers read. -/
structure Request where
  authorization : Option String := none
  body : List (String × JsVal) := []
  paramId : String := ""
  queryLimit : Option String := none
  hasFile : Bool := false

/-- Read a body field; a missing field destructures to `undefined`. -/
def field (r : Request) (k : String) : JsVal :=
  match r.body.find? (fun p => p.1 = k) with
  | some p => p.2
  | none => .jother

/-- The identity attached by token verification (`req.user`): a uid and
the optional `name` / `email` claims of the decoded token. -/
structure AuthUser where
  uid : String
  name : Option String := none
  email : Option String := none
deriving DecidableEq, Repr

/-- An error thrown by an external collaborator: optional error code plus
message, as inspected by the catch blocks. -/
structure Err where
  code : Option String := none
  message : String
deriving DecidableEq, Repr

/-- The external collaborators and ambient values: token verification,
auth-account creation and update, the registration profile write, the
image host, the server timestamp and the id assigned by `.add`. -/
structure Ext where
  verify : String → Except String AuthUser
  createUser : String → String → String → Except Err String
  setUserDoc : Except Err Unit
  updateAuthUser : Except Err Unit
  imgbbKey : Option String
  imgbbUpload : Except Err (Option (String × Option String))
  axiosGet : String → Except Err Unit
  now : Nat
  newId : String

/-- Response body `{error: msg}`. -/
def errBody (msg : String) : Json := .obj [("error", .str msg)]

/-- The 500 response produced by a catch block: `{error: e.message}`. -/
def caught (e : Err) : Response := ⟨500, errBody e.message⟩

/-! ### The authentication gate (src/index.js lines 40-54) -/

/-- `requireAuth` composed with a downstream handler: extract the bearer
token, reject with 401 when missing/empty or when verification fails,
otherwise run the handler on the verified identity. -/
def withAuth (ext : Ext) (req : Request) (w : World)
    (h : AuthUser → Response × World) : Response × World :=
  let header := req.authorization.getD ""
  let token : Option String :=
    if jsStartsWith header "Bearer " then some (jsDrop header 7) else none
  match token with
  | none => (⟨401, errBody "Missing Authorization Bearer token"⟩, w)
  | some t =>
    if t = "" then (⟨401, errBody "Missing Authorization Bearer token"⟩, w)
    else
      match ext.verify t with
      | .error msg =>
        (⟨401, .obj [("error", .str "Invalid token"), ("details", .str msg)]⟩, w)
      | .ok u => h u

/-! ### Query limits (lines 110, 199, 218) -/

/-- `Math.min(parseInt(req.query.limit || "50", 10), 200)`; `none` models
the `NaN` outcome. -/
def effLimit (q : Option String) : Option Int :=
  let raw := match q with
    | none => "50"
    | some s => if s = "" then "50" else s
  (parseIntJS raw).map (fun n => min n 200)

/-- JSON rendering of an optional (nullable) string field. -/
def optStrJson : Option String → Json
  | some s => .str s
  | none => .null

/-- JSON rendering of an optional timestamp field (present only after an
update has written it). -/
def updatedAtField : Option Nat → List (String × Json)
  | some t => [("updatedAt", .num t)]
  | none => []

/-- `{id: doc.id, ...doc.data()}` for a user document. -/
def userJson (id : String) (u : UserDoc) : Json :=
  .obj ([("id", .str id), ("name", .str u.name), ("email", .str u.email),
    ("createdAt", .num u.createdAt)] ++ updatedAtField u.updatedAt)

/-- `{id: doc.id, ...doc.data()}` for an event document. -/
def eventJson (id : String) (d : EventDoc) : Json :=
  .obj ([("id", .str id), ("title", .str d.title),
    ("location", optStrJson d.location),
    ("description", optStrJson d.description),
    ("imageUrl", optStrJson d.imageUrl),
    ("imageDeleteUrl", optStrJson d.imageDeleteUrl),
    ("ownerUid", .str d.ownerUid), ("ownerName", .str d.ownerName),
    ("ownerEmail", optStrJson d.ownerEmail),
    ("createdAt", .num d.createdAt)] ++ updatedAtField d.updatedAt)

/-! ### User handlers -/

/-- GET /users (lines 108-119): order by name ascending, capped limit.
The database client rejects a `NaN` or negative limit, which the catch
block turns into a 500. -/
def listUsers (req : Request) (w : World) : Response × World :=
  match effLimit req.queryLimit with
  | none => (⟨500, errBody "Value for argument \x22limit\x22 is not a valid integer."⟩, w)
  | some n =>
    if n < 0 then (⟨500, errBody "Value for argument \x22limit\x22 is not a valid integer."⟩, w)
    else
      let docs := (w.users.mergeSort (fun a b => a.2.name ≤ b.2.name)).take n.toNat
      (⟨200, .obj [("count", .num docs.length),
        ("users", .arr (docs.map (fun p => userJson p.1 p.2))),
        ("limit", .num n)]⟩, w)

/-- GET /users/me (lines 122-133). -/
def getMe (user : AuthUser) (w : World) : Response × World :=
  match getDoc w.users user.uid with
  | none => (⟨404, errBody "User profile not found"⟩, w)
  | some u => (⟨200, userJson user.uid u⟩, w)

/-- Outcome of POST /users/register: the response, the world after, and
whether the auth-service account-creation call was reached. -/
structure RegResult where
  resp : Response
  world : World
  createUserCalled : Bool

/-- The password guard of registration (line 146), in positive form: the
request passes it iff `isNonEmptyString(password) && !(password.length < 6)`. -/
def passwordOk (v : JsVal) : Bool :=
  isNonEmptyString v && decide (6 ≤ jsLength (asStr v))

/-- The email guard of registration (line 143), in positive form. -/
def emailOk (v : JsVal) : Bool :=
  isNonEmptyString v && jsIncludesAt (asStr v)

/-- POST /users/register (lines 136-169): validate name/email/password,
create the auth account, write the profile document; map a duplicate-email
error code to 409 and any other thrown error to 500. -/
def register (ext : Ext) (req : Request) (w : World) : RegResult :=
  let name := field req "name"
  let email := field req "email"
  let password := field req "password"
  if ¬ isNonEmptyString name then
    ⟨⟨400, errBody "name is required (non-empty string)"⟩, w, false⟩
  else if ¬ emailOk email then
    ⟨⟨400, errBody "valid email is required"⟩, w, false⟩
  else if ¬ passwordOk password then
    ⟨⟨400, errBody "password must be at least 6 characters"⟩, w, false⟩
  else
    match ext.createUser (jsTrim (asStr email)) (asStr password) (jsTrim (asStr name)) with
    | .error e =>
      if e.code = some "auth/email-already-exists" then
        ⟨⟨409, errBody "Email already exists"⟩, w, true⟩
      else ⟨caught e, w, true⟩
    | .ok uid =>
      match ext.setUserDoc with
      | .error e =>
        if e.code = some "auth/email-already-exists" then
          ⟨⟨409, errBody "Email already exists"⟩, w, true⟩
        else ⟨caught e, w, true⟩
      | .ok _ =>
        let doc : UserDoc :=
          ⟨jsTrim (asStr name), jsTrim (asStr email), ext.now, none⟩
        ⟨⟨201, .obj [("ok", .bool true), ("uid", .str uid)]⟩,
          { w with users := putDoc w.users uid doc }, true⟩

/-- PUT /users/me (lines 172-192): validate name, update the caller's own
document (the database update throws when the document is absent), then
update the auth display name. -/
def updateMe (ext : Ext) (user : AuthUser) (req : Request) (w : World) :
    Response × World :=
  let name := field req "name"
  if ¬ isNonEmptyString name then
    (⟨400, errBody "name is required (non-empty string)"⟩, w)
  else
    match getDoc w.users user.uid with
    | none => (⟨500, errBody "No document to update"⟩, w)
    | some u =>
      let u' : UserDoc := { u with name := jsTrim (asStr name), updatedAt := some ext.now }
      let w' := { w with users := setDoc w.users user.uid u' }
      match ext.updateAuthUser with
      | .error e => (caught e, w')
      | .ok _ =>
        (⟨200, .obj [("ok", .bool true), ("msg", .str "Sikeres módosítás")]⟩, w')

/-! ### Event handlers -/

/-- GET /events (lines 197-212): order by createdAt descending, capped
limit, same limit handling as GET /users. -/
def listEvents (req : Request) (w : World) : Response × World :=
  match effLimit req.queryLimit with
  | none => (⟨500, errBody "Value for argument \x22limit\x22 is not a valid integer."⟩, w)
  | some n =>
    if n < 0 then (⟨500, errBody "Value for argument \x22limit\x22 is not a valid integer."⟩, w)
    else
      let docs := (w.events.mergeSort (fun a b => b.2.createdAt ≤ a.2.createdAt)).take n.toNat
      (⟨200, .obj [("count", .num docs.length),
        ("events", .arr (docs.map (fun p => eventJson p.1 p.2))),
        ("limit", .num n)]⟩, w)

/-- GET /events/mine (lines 215-232): filter by owner, order, cap. -/
def listMine (user : AuthUser) (req : Request) (w : World) : Response × World :=
  match effLimit req.queryLimit with
  | none => (⟨500, errBody "Value for argument \x22limit\x22 is not a valid integer."⟩, w)
  | some n =>
    if n < 0 then (⟨500, errBody "Value for argument \x22limit\x22 is not a valid integer."⟩, w)
    else
      let mine := w.events.filter (fun p => p.2.ownerUid = user.uid)
      let docs := (mine.mergeSort (fun a b => b.2.createdAt ≤ a.2.createdAt)).take n.toNat
      (⟨200, .obj [("count", .num docs.length),
        ("events", .arr (docs.map (fun p => eventJson p.1 p.2))),
        ("limit", .num n)]⟩, w)

/-- GET /events/:id (lines 235-246). -/
def getEvent (req : Request) (w : World) : Response × World :=
  match getDoc w.events req.paramId with
  | none => (⟨404, errBody "A megadott esemény nem létezik"⟩, w)
  | some d => (⟨200, eventJson req.paramId d⟩, w)

/-- An optional request field stored as its trimmed value when it is a
non-empty string and as `null` otherwise (lines 270-274, 308-311). -/
def optTrim (v : JsVal) : Option String :=
  if isNonEmptyString v then some (jsTrim (asStr v)) else none

/-- The denormalized owner name of a new event (lines 261-264):
`(userData?.name && trim) || (req.user?.name && trim) ||
 (req.user?.email ? localPart : "Unknown")`. -/
def ownerNameOf (userData : Option UserDoc) (tokenName tokenEmail : Option String) :
    String :=
  let fromProfile : Option String := userData.bind (fun u => strOrNone (jsTrim u.name))
  let fromToken : Option String := tokenName.bind (fun n => strOrNone (jsTrim n))
  match fromProfile with
  | some s => s
  | none =>
    match fromToken with
    | some s => s
    | none =>
      match tokenEmail with
      | some e => if e = "" then "Unknown" else localPart e
      | none => "Unknown"

/-- The denormalized owner email of a new event (line 266):
`userData?.email || req.user?.email || null`. -/
def ownerEmailOf (userData : Option UserDoc) (tokenEmail : Option String) :
    Option String :=
  match userData.bind (fun u => strOrNone u.email) with
  | some s => some s
  | none => tokenEmail.bind strOrNone

/-- POST /events (lines 249-287): validate title, read the caller's
profile, denormalize owner name/email, add the document. -/
def createEvent (ext : Ext) (user : AuthUser) (req : Request) (w : World) :
    Response × World :=
  let title := field req "title"
  if ¬ isNonEmptyString title then (⟨400, errBody "title is required"⟩, w)
  else
    let userData := getDoc w.users user.uid
    let doc : EventDoc :=
      { title := jsTrim (asStr title)
        location := optTrim (field req "location")
        description := optTrim (field req "description")
        imageUrl := optTrim (field req "imageUrl")
        imageDeleteUrl := optTrim (field req "imageDeleteUrl")
        ownerUid := user.uid
        ownerName := ownerNameOf userData user.name user.email
        ownerEmail := ownerEmailOf userData user.email
        createdAt := ext.now
        updatedAt := none }
    (⟨201, .obj [("ok", .bool true), ("id", .str ext.newId)]⟩,
      { w with events := w.events ++ [(ext.newId, doc)] })

/-- PUT /events/:id (lines 290-320): validate title, 404 when the document
is absent, 403 when the caller is not the owner, otherwise overwrite
title/location/image fields and set updatedAt. -/
def updateEvent (ext : Ext) (user : AuthUser) (req : Request) (w : World) :
    Response × World :=
  let title := field req "title"
  if ¬ isNonEmptyString title then
    (⟨400, errBody "Hibás kérés: title kötelező"⟩, w)
  else
    match getDoc w.events req.paramId with
    | none => (⟨404, errBody "A megadott esemény nem létezik"⟩, w)
    | some d =>
      if d.ownerUid ≠ user.uid then (⟨403, errBody "Nem a te eseményed"⟩, w)
      else
        let d' : EventDoc :=
          { d with title := jsTrim (asStr title)
                   location := optTrim (field req "location")
                   imageUrl := optTrim (field req "imageUrl")
                   imageDeleteUrl := optTrim (field req "imageDeleteUrl")
                   updatedAt := some ext.now }
        (⟨200, .obj [("ok", .bool true), ("msg", .str "Sikeres módosítás")]⟩,
          { w with events := setDoc w.events req.paramId d' })

/-- DELETE /events/:id (lines 323-339): 404 when absent, 403 when not the
owner, otherwise delete. -/
def deleteEvent (user : AuthUser) (req : Request) (w : World) :
    Response × World :=
  match getDoc w.events req.paramId with
  | none => (⟨404, errBody "A megadott esemény nem létezik"⟩, w)
  | some d =>
    if d.ownerUid ≠ user.uid then (⟨403, errBody "Nem a te eseményed"⟩, w)
    else
      (⟨200, .obj [("ok", .bool true), ("msg", .str "Sikeres törlés")]⟩,
        { w with events := delDoc w.events req.paramId })

/-! ### Image proxy handlers -/

/-- POST /api/uploadImage (lines 58-86): needs the API key and a file;
forwards to the image host; 500 on provider failure or missing url. -/
def uploadImage (ext : Ext) (_user : AuthUser) (req : Request) (w : World) :
    Response × World :=
  match ext.imgbbKey with
  | none => (⟨500, errBody "Missing IMGBB_API_KEY in .env"⟩, w)
  | some _ =>
    if ¬ req.hasFile then
      (⟨400, errBody "Missing image file (field name: image)"⟩, w)
    else
      match ext.imgbbUpload with
      | .error e => (caught e, w)
      | .ok none => (⟨500, errBody "imgbb upload failed"⟩, w)
      | .ok (some (url, del)) =>
        (⟨200, .obj [("url", .str url),
          ("delete_url", optStrJson (del.bind strOrNone))]⟩, w)

/-- POST /api/deleteImage (lines 89-103): validate delete_url, issue the
deletion request. -/
def deleteImage (ext : Ext) (_user : AuthUser) (req : Request) (w : World) :
    Response × World :=
  let du := field req "delete_url"
  if ¬ isNonEmptyString du then
    (⟨400, errBody "delete_url is required"⟩, w)
  else
    match ext.axiosGet (jsTrim (asStr du)) with
    | .error e => (caught e, w)
    | .ok _ => (⟨200, .obj [("ok", .bool true)]⟩, w)

/-! ### Routing -/

/-- The HTTP surface. -/
inductive Route where
  | getUsersList
  | getUsersMe
  | postRegister
  | putUsersMe
  | getEventsList
  | getEventsMine
  | getEventById
  | postEvents
  | putEventById
  | deleteEventById
  | postUploadImage
  | postDeleteImage
deriving DecidableEq, Repr

/-- Which routes pass through `requireAuth`. -/
def gated : Route → Bool
  | .getUsersMe | .putUsersMe | .getEventsMine | .postEvents
  | .putEventById | .deleteEventById | .postUploadImage | .postDeleteImage => true
  | .getUsersList | .postRegister | .getEventsList | .getEventById => false

/-- Dispatch a request to its handler, applying the gate exactly where
src/index.js does. -/
def handle (ext : Ext) (r : Route) (req : Request) (w : World) :
    Response × World :=
  match r with
  | .getUsersList => listUsers req w
  | .getUsersMe => withAuth ext req w (fun u => getMe u w)
  | .postRegister => let o := register ext req w; (o.resp, o.world)
  | .putUsersMe => withAuth ext req w (fun u => updateMe ext u req w)
  | .getEventsList => listEvents req w
  | .getEventsMine => withAuth ext req w (fun u => listMine u req w)
  | .getEventById => getEvent req w
  | .postEvents => withAuth ext req w (fun u => createEvent ext u req w)
  | .putEventById => withAuth ext req w (fun u => updateEvent ext u req w)
  | .deleteEventById => withAuth ext req w (fun u => deleteEvent u req w)
  | .postUploadImage => withAuth ext req w (fun u => uploadImage ext u req w)
  | .postDeleteImage => withAuth ext req w (fun u => deleteImage ext u req w)

/-- The number of items in the named array field of a response body. -/
def itemsCount (r : Response) (k : String) : Nat :=
  match r.body with
  | .obj kvs =>
    match kvs.find? (fun p => p.1 = k) with
    | some (_, Json.arr xs) => xs.length
    | _ => 0
  | _ => 0

/-! ### Association-list lemmas -/

theorem getDoc_setDoc_ne {α : Type} (l : List (String × α)) (k k' : String)
    (v : α) (h : k' ≠ k) : getDoc (setDoc l k v) k' = getDoc l k' := by
  induction l with
  | nil => rfl
  | cons p t ih =>
    by_cases hp : p.1 = k
    · simp [setDoc, getDoc, hp, Ne.symm h, ih]
    · by_cases hp' : p.1 = k'
      · simp [setDoc, getDoc, hp, hp', h]
      · simp [setDoc, getDoc, hp, hp', h, ih]

theorem getDoc_setDoc_eq {α : Type} (l : List (String × α)) (k : String)
    (v d : α) (h : getDoc l k = some d) :
    getDoc (setDoc l k v) k = some v := by
  induction l with
  | nil => simp [getDoc] at h
  | cons p t ih =>
    by_cases hp : p.1 = k
    · simp [setDoc, getDoc, hp]
    · simp [setDoc, getDoc, hp] at h ⊢
      exact ih h

theorem getDoc_append_fresh {α : Type} (l : List (String × α)) (k : String)
    (v : α) (h : getDoc l k = none) :
    getDoc (l ++ [(k, v)]) k = some v := by
  induction l with
  | nil => simp [getDoc]
  | cons p t ih =>
    by_cases hp : p.1 = k
    · simp [getDoc, hp] at h
    · simp [getDoc, hp] at h ⊢
      exact ih h

/-! ### The authentication gate -/

theorem withAuth_no_token (ext : Ext) (req : Request) (w : World)
    (h : AuthUser → Response × World)
    (hb : ¬ (jsStartsWith (req.authorization.getD "") "Bearer " = true ∧
             jsDrop (req.authorization.getD "") 7 ≠ "")) :
    withAuth ext req w h =
      (⟨401, errBody "Missing Authorization Bearer token"⟩, w) := by
  unfold withAuth
  by_cases hs : jsStartsWith (req.authorization.getD "") "Bearer " = true
  · have ht : jsDrop (req.authorization.getD "") 7 = "" := by
      by_contra hne
      exact hb ⟨hs, hne⟩
    simp [hs, ht]
  · simp [hs]

theorem withAuth_bad_token (ext : Ext) (req : Request) (w : World)
    (h : AuthUser → Response × World) (msg : String)
    (hs : jsStartsWith (req.authorization.getD "") "Bearer " = true)
    (hne : jsDrop (req.authorization.getD "") 7 ≠ "")
    (hv : ext.verify (jsDrop (req.authorization.getD "") 7) = .error msg) :
    withAuth ext req w h =
      (⟨401, .obj [("error", .str "Invalid token"), ("details", .str msg)]⟩, w) := by
  unfold withAuth
  simp [hs, hne, hv]

/-- C1: on every gated route (PUT /users/me, GET /users/me, GET
/events/mine, POST /events, PUT /events/:id, DELETE /events/:id, POST
/api/uploadImage, POST /api/deleteImage), a request whose Authorization
header is absent or not of the form `Bearer <non-empty token>` gets a 401
with body `{error: "Missing Authorization Bearer token"}` and the handler
body never runs (the world is unchanged, for every handler); and when
token verification fails, the response is 401 with a body carrying the
verification failure message. -/
theorem claim1_auth_gate (ext : Ext) (r : Route) (req : Request) (w : World)
    (hg : gated r = true) :
    (¬ (jsStartsWith (req.authorization.getD "") "Bearer " = true ∧
        jsDrop (req.authorization.getD "") 7 ≠ "") →
      handle ext r req w =
        (⟨401, errBody "Missing Authorization Bearer token"⟩, w)) ∧
    (∀ msg, jsStartsWith (req.authorization.getD "") "Bearer " = true →
      jsDrop (req.authorization.getD "") 7 ≠ "" →
      ext.verify (jsDrop (req.authorization.getD "") 7) = .error msg →
      handle ext r req w =
        (⟨401, .obj [("error", .str "Invalid token"),
          ("details", .str msg)]⟩, w)) := by
  constructor
  · intro hb
    cases r <;> simp [gated] at hg <;>
      simpa [handle] using withAuth_no_token ext req w _ hb
  · intro msg hs hne hv
    cases r <;> simp [gated] at hg <;>
      simpa [handle] using withAuth_bad_token ext req w _ msg hs hne hv

/-- A concrete external-collaborator assignment used by the witnesses. -/
def extW : Ext where
  verify := fun t => if t = "good" then .ok ⟨"u1", none, none⟩ else .error "token expired"
  createUser := fun _ _ _ => .ok "u1"
  setUserDoc := .ok ()
  updateAuthUser := .ok ()
  imgbbKey := some "key"
  imgbbUpload := .ok (some ("http://img/1", some "http://img/del/1"))
  axiosGet := fun _ => .ok ()
  now := 5
  newId := "e1"

theorem claim1_auth_gate_witness :
    handle extW .putUsersMe { authorization := some "Basic abc" } ⟨[], []⟩ =
      (⟨401, errBody "Missing Authorization Bearer token"⟩, ⟨[], []⟩) :=
  (claim1_auth_gate extW .putUsersMe { authorization := some "Basic abc" }
    ⟨[], []⟩ (by decide)).1 (by decide)

/-- C2: a registration whose body has a blank name, an email without "@",
or a password shorter than 6 characters gets a 400 with the field-specific
message, the world is unchanged, and the auth-service call is not reached. -/
theorem claim2_register_validation (ext : Ext) (req : Request) (w : World)
    (hbad : isNonEmptyString (field req "name") = false ∨
      (∃ s, field req "email" = .jstr s ∧ jsIncludesAt s = false) ∨
      (∃ s, field req "password" = .jstr s ∧ jsLength s < 6)) :
    (register ext req w).resp.status = 400 ∧
    (register ext req w).world = w ∧
    (register ext req w).createUserCalled = false ∧
    (isNonEmptyString (field req "name") = false →
      (register ext req w).resp.body = errBody "name is required (non-empty string)") ∧
    (isNonEmptyString (field req "name") = true →
      emailOk (field req "email") = false →
      (register ext req w).resp.body = errBody "valid email is required") ∧
    (isNonEmptyString (field req "name") = true →
      emailOk (field req "email") = true →
      passwordOk (field req "password") = false →
      (register ext req w).resp.body =
        errBody "password must be at least 6 characters") := by
  by_cases h1 : isNonEmptyString (field req "name") = true
  · by_cases h2 : emailOk (field req "email") = true
    · by_cases h3 : passwordOk (field req "password") = true
      · exfalso
        rcases hbad with hb | ⟨s, hs, hinc⟩ | ⟨s, hs, hlen⟩
        · simp [h1] at hb
        · rw [hs] at h2
          simp [emailOk, asStr, hinc] at h2
        · rw [hs] at h3
          simp [passwordOk, asStr] at h3
          omega
      · have hr : register ext req w =
            ⟨⟨400, errBody "password must be at least 6 characters"⟩, w, false⟩ := by
          simp [register, h1, h2, h3]
        rw [hr]
        exact ⟨rfl, rfl, rfl, fun hb => by simp [h1] at hb,
          fun _ he => absurd h2 (by simp [he]), fun _ _ _ => rfl⟩
    · have hr : register ext req w =
          ⟨⟨400, errBody "valid email is required"⟩, w, false⟩ := by
        simp [register, h1, h2]
      rw [hr]
      exact ⟨rfl, rfl, rfl, fun hb => by simp [h1] at hb,
        fun _ _ => rfl, fun _ he _ => absurd he h2⟩
  · have hr : register ext req w =
        ⟨⟨400, errBody "name is required (non-empty string)"⟩, w, false⟩ := by
      simp [register, h1]
    rw [hr]
    exact ⟨rfl, rfl, rfl, fun _ => rfl,
      fun hn _ => absurd hn h1, fun hn _ _ => absurd hn h1⟩

/-- Registration request with a password of six spaces. -/
def reqPwdSpaces : Request :=
  { body := [("name", .jstr "Ann"), ("email", .jstr "ann@x.com"),
    ("password", .jstr "      ")] }

theorem claim2_register_validation_witness :
    (register extW { body := [("name", .jstr "  ")] } ⟨[], []⟩).resp.status = 400 ∧
    (register extW { body := [("name", .jstr "  ")] } ⟨[], []⟩).createUserCalled = false :=
  ⟨(claim2_register_validation extW { body := [("name", .jstr "  ")] } ⟨[], []⟩
      (Or.inl (by decide))).1,
   (claim2_register_validation extW { body := [("name", .jstr "  ")] } ⟨[], []⟩
      (Or.inl (by decide))).2.2.1⟩

/-- C3 counterexample: a password consisting of six whitespace characters
has length ≥ 6 but is rejected by registration with the 400 password
message, never reaching account creation — refuting the claim that every
string password of length ≥ 6 passes validation. -/
theorem claim3_counterexample :
    6 ≤ jsLength "      " ∧
    (register extW reqPwdSpaces ⟨[], []⟩).resp.status = 400 ∧
    (register extW reqPwdSpaces ⟨[], []⟩).resp.body =
      errBody "password must be at least 6 characters" ∧
    (register extW reqPwdSpaces ⟨[], []⟩).createUserCalled = false :=
  ⟨by decide, by decide, rfl, by decide⟩

/-- C3 (amended): a registration password is accepted exactly when it is a
string whose trimmed form is non-empty and whose untrimmed length is at
least 6; non-strings are rejected, and when name and email are valid a
rejected password yields the 400 password message without reaching account
creation. -/
theorem claim3_password_rule :
    (∀ s : String, passwordOk (.jstr s) = true ↔ (jsTrim s ≠ "" ∧ 6 ≤ jsLength s)) ∧
    passwordOk .jother = false ∧
    (∀ (ext : Ext) (req : Request) (w : World),
      isNonEmptyString (field req "name") = true →
      emailOk (field req "email") = true →
      passwordOk (field req "password") = false →
      (register ext req w).resp =
        ⟨400, errBody "password must be at least 6 characters"⟩ ∧
      (register ext req w).createUserCalled = false) := by
  refine ⟨?_, rfl, ?_⟩
  · intro s
    simp only [passwordOk, isNonEmptyString, asStr, Bool.and_eq_true,
      decide_eq_true_eq]
    constructor
    · rintro ⟨h1, h2⟩
      refine ⟨fun hemp => ?_, h2⟩
      rw [hemp] at h1
      simp [jsLength] at h1
    · rintro ⟨h1, h2⟩
      refine ⟨?_, h2⟩
      have : (jsTrim s).toList ≠ [] := by
        intro hnil
        exact h1 (by
          cases htr : jsTrim s with
          | mk data => rw [htr] at hnil; simp at hnil; simp [hnil])
      simpa [jsLength] using List.length_pos.mpr this
  · intro ext req w h1 h2 h3
    refine ⟨?_, ?_⟩ <;> simp [register, h1, h2, h3]

theorem claim3_password_rule_witness :
    passwordOk (.jstr "secret") = true ∧
    (register extW { body := [("name", .jstr "Bob"), ("email", .jstr "b@x"),
        ("password", .jstr "abc")] } ⟨[], []⟩).resp =
      ⟨400, errBody "password must be at least 6 characters"⟩ :=
  ⟨(claim3_password_rule.1 "secret").mpr ⟨by decide, by decide⟩,
   (claim3_password_rule.2.2 extW
      { body := [("name", .jstr "Bob"), ("email", .jstr "b@x"),
        ("password", .jstr "abc")] } ⟨[], []⟩
      (by decide) (by decide) (by decide)).1⟩

/-- The document written by a successful PUT /events/:id. -/
theorem updateEvent_stored (ext : Ext) (user : AuthUser) (req : Request)
    (w : World) (d : EventDoc)
    (hd : getDoc w.events req.paramId = some d)
    (hown : d.ownerUid = user.uid)
    (ht : isNonEmptyString (field req "title") = true) :
    updateEvent ext user req w =
      (⟨200, .obj [("ok", .bool true), ("msg", .str "Sikeres módosítás")]⟩,
        { w with events := setDoc w.events req.paramId { d with
            title := jsTrim (asStr (field req "title")),
            location := optTrim (field req "location"),
            imageUrl := optTrim (field req "imageUrl"),
            imageDeleteUrl := optTrim (field req "imageDeleteUrl"),
            updatedAt := some ext.now } }) := by
  simp [updateEvent, ht, hd, hown]

/-- C4: for an authenticated caller, updating (with a non-empty title) or
deleting an event whose id does not exist yields 404, and doing so on an
event owned by a different uid yields 403; in every failure case the whole
event collection — hence the stored document — is unchanged. -/
theorem claim4_event_auth (ext : Ext) (user : AuthUser) (req : Request)
    (w : World) :
    (getDoc w.events req.paramId = none →
      (isNonEmptyString (field req "title") = true →
        updateEvent ext user req w =
          (⟨404, errBody "A megadott esemény nem létezik"⟩, w)) ∧
      deleteEvent user req w =
        (⟨404, errBody "A megadott esemény nem létezik"⟩, w)) ∧
    (∀ d, getDoc w.events req.paramId = some d → d.ownerUid ≠ user.uid →
      (isNonEmptyString (field req "title") = true →
        updateEvent ext user req w = (⟨403, errBody "Nem a te eseményed"⟩, w)) ∧
      deleteEvent user req w = (⟨403, errBody "Nem a te eseményed"⟩, w)) := by
  constructor
  · intro hnone
    exact ⟨fun ht => by simp [updateEvent, ht, hnone],
      by simp [deleteEvent, hnone]⟩
  · intro d hd hown
    exact ⟨fun ht => by simp [updateEvent, ht, hd, hown],
      by simp [deleteEvent, hd, hown]⟩

/-- An event owned by alice, and a world storing only it. -/
def evtA : EventDoc :=
  { title := "T", location := none, description := some "D", imageUrl := none,
    imageDeleteUrl := none, ownerUid := "alice", ownerName := "Alice",
    ownerEmail := some "a@x", createdAt := 1, updatedAt := none }

/-- World with the single event `e1` owned by alice. -/
def wEvt : World := ⟨[], [("e1", evtA)]⟩

theorem claim4_event_auth_witness :
    updateEvent extW ⟨"bob", none, none⟩
        { body := [("title", .jstr "New")], paramId := "e1" } wEvt =
      (⟨403, errBody "Nem a te eseményed"⟩, wEvt) ∧
    deleteEvent ⟨"bob", none, none⟩
        { body := [("title", .jstr "New")], paramId := "e1" } wEvt =
      (⟨403, errBody "Nem a te eseményed"⟩, wEvt) :=
  ⟨((claim4_event_auth extW ⟨"bob", none, none⟩
      { body := [("title", .jstr "New")], paramId := "e1" } wEvt).2 evtA
      (by decide) (by decide)).1 (by decide),
   ((claim4_event_auth extW ⟨"bob", none, none⟩
      { body := [("title", .jstr "New")], paramId := "e1" } wEvt).2 evtA
      (by decide) (by decide)).2⟩

/-- C5: after a successful event update, the stored document's location,
imageUrl and imageDeleteUrl equal the trimmed request values when those are
non-empty strings and are null otherwise — the old document's values for
these fields are never preserved. -/
theorem claim5_update_resets_optional (ext : Ext) (user : AuthUser)
    (req : Request) (w : World) (d : EventDoc)
    (hd : getDoc w.events req.paramId = some d)
    (hown : d.ownerUid = user.uid)
    (ht : isNonEmptyString (field req "title") = true) :
    (updateEvent ext user req w).1.status = 200 ∧
    getDoc (updateEvent ext user req w).2.events req.paramId = some
      { d with
        title := jsTrim (asStr (field req "title")),
        location :=
          if isNonEmptyString (field req "location") then
            some (jsTrim (asStr (field req "location"))) else none,
        imageUrl :=
          if isNonEmptyString (field req "imageUrl") then
            some (jsTrim (asStr (field req "imageUrl"))) else none,
        imageDeleteUrl :=
          if isNonEmptyString (field req "imageDeleteUrl") then
            some (jsTrim (asStr (field req "imageDeleteUrl"))) else none,
        updatedAt := some ext.now } := by
  have hr := updateEvent_stored ext user req w d hd hown ht
  constructor
  · rw [hr]
  · rw [hr]
    simpa [optTrim] using getDoc_setDoc_eq w.events req.paramId _ d hd

theorem claim5_update_resets_optional_witness :
    getDoc (updateEvent extW ⟨"alice", none, none⟩
        { body := [("title", .jstr " T2 ")], paramId := "e1" } wEvt).2.events "e1" =
      some { evtA with
              title := "T2", location := none, imageUrl := none,
              imageDeleteUrl := none, updatedAt := some 5 } :=
  (claim5_update_resets_optional extW ⟨"alice", none, none⟩
    { body := [("title", .jstr " T2 ")], paramId := "e1" } wEvt evtA
    (by decide) (by decide) (by decide)).2

/-- C10: a successful event update leaves description, ownerUid, ownerName,
ownerEmail and createdAt unchanged; it writes only title, location,
imageUrl, imageDeleteUrl and updatedAt. -/
theorem claim10_update_frame (ext : Ext) (user : AuthUser)
    (req : Request) (w : World) (d : EventDoc)
    (hd : getDoc w.events req.paramId = some d)
    (hown : d.ownerUid = user.uid)
    (ht : isNonEmptyString (field req "title") = true) :
    ∃ d', getDoc (updateEvent ext user req w).2.events req.paramId = some d' ∧
      d'.description = d.description ∧
      d'.ownerUid = d.ownerUid ∧
      d'.ownerName = d.ownerName ∧
      d'.ownerEmail = d.ownerEmail ∧
      d'.createdAt = d.createdAt ∧
      d'.title = jsTrim (asStr (field req "title")) ∧
      d'.location = optTrim (field req "location") ∧
      d'.imageUrl = optTrim (field req "imageUrl") ∧
      d'.imageDeleteUrl = optTrim (field req "imageDeleteUrl") ∧
      d'.updatedAt = some ext.now := by
  have hr := updateEvent_stored ext user req w d hd hown ht
  refine ⟨{ d with
      title := jsTrim (asStr (field req "title")),
      location := optTrim (field req "location"),
      imageUrl := optTrim (field req "imageUrl"),
      imageDeleteUrl := optTrim (field req "imageDeleteUrl"),
      updatedAt := some ext.now },
    ?_, rfl, rfl, rfl, rfl, rfl, rfl, rfl, rfl, rfl, rfl⟩
  rw [hr]
  exact getDoc_setDoc_eq w.events req.paramId _ d hd

theorem claim10_update_frame_witness :
    ∃ d', getDoc (updateEvent extW ⟨"alice", none, none⟩
        { body := [("title", .jstr "T3")], paramId := "e1" } wEvt).2.events "e1" =
        some d' ∧
      d'.description = some "D" ∧ d'.ownerUid = "alice" := by
  obtain ⟨d', h1, h2, h3, -⟩ := claim10_update_frame extW ⟨"alice", none, none⟩
    { body := [("title", .jstr "T3")], paramId := "e1" } wEvt evtA
    (by decide) (by decide) (by decide)
  exact ⟨d', h1, h2, h3⟩

/-- C9: PUT /users/me can only write the document keyed by the caller's
verified uid — for every request body, world and external behaviour, every
user document stored under a different key is unchanged. -/
theorem claim9_profile_isolation (ext : Ext) (user : AuthUser)
    (req : Request) (w : World) (k : String) (hk : k ≠ user.uid) :
    getDoc (updateMe ext user req w).2.users k = getDoc w.users k := by
  by_cases hn : isNonEmptyString (field req "name") = true
  · cases hg : getDoc w.users user.uid with
    | none => simp [updateMe, hn, hg]
    | some u =>
      cases hup : ext.updateAuthUser with
      | error e => simp [updateMe, hn, hg, hup, getDoc_setDoc_ne _ _ _ _ hk]
      | ok _ => simp [updateMe, hn, hg, hup, getDoc_setDoc_ne _ _ _ _ hk]
  · simp [updateMe, hn]

/-- World with user documents for alice and bob. -/
def wUsers : World :=
  ⟨[("alice", ⟨"Alice", "a@x", 0, none⟩), ("bob", ⟨"Bob", "b@x", 0, none⟩)], []⟩

theorem claim9_profile_isolation_witness :
    getDoc (updateMe extW ⟨"alice", none, none⟩
        { body := [("name", .jstr "A2")] } wUsers).2.users "bob" =
      getDoc wUsers.users "bob" :=
  claim9_profile_isolation extW ⟨"alice", none, none⟩
    { body := [("name", .jstr "A2")] } wUsers "bob" (by decide)

/-! ### Query-limit bounds -/

theorem itemsCount_obj_events (c lim : Json) (xs : List Json) :
    itemsCount ⟨200, Json.obj [("count", c), ("events", Json.arr xs), ("limit", lim)]⟩
      "events" = xs.length := rfl

theorem itemsCount_obj_users (c lim : Json) (xs : List Json) :
    itemsCount ⟨200, Json.obj [("count", c), ("users", Json.arr xs), ("limit", lim)]⟩
      "users" = xs.length := rfl

theorem effLimit_le (q : Option String) (n : Int) (h : effLimit q = some n) :
    n ≤ 200 := by
  unfold effLimit at h
  rw [Option.map_eq_some'] at h
  obtain ⟨m, _, hmn⟩ := h
  subst hmn
  exact min_le_right m 200

/-- C6: GET /events and GET /users return at most 200 items whatever the
limit parameter says, and at most 50 items when it is absent. -/
theorem claim6_limit_cap (req : Request) (w : World) :
    itemsCount (listEvents req w).1 "events" ≤ 200 ∧
    itemsCount (listUsers req w).1 "users" ≤ 200 ∧
    (req.queryLimit = none →
      itemsCount (listEvents req w).1 "events" ≤ 50 ∧
      itemsCount (listUsers req w).1 "users" ≤ 50) := by
  have hev : ∀ b : Nat, (∀ n : Int, effLimit req.queryLimit = some n → n.toNat ≤ b) →
      itemsCount (listEvents req w).1 "events" ≤ b ∧
      itemsCount (listUsers req w).1 "users" ≤ b := by
    intro b hball
    cases hq : effLimit req.queryLimit with
    | none =>
      have h1 : (listEvents req w).1 =
          ⟨500, errBody "Value for argument \x22limit\x22 is not a valid integer."⟩ := by
        simp [listEvents, hq]
      have h2 : (listUsers req w).1 =
          ⟨500, errBody "Value for argument \x22limit\x22 is not a valid integer."⟩ := by
        simp [listUsers, hq]
      constructor
      · rw [h1]
        exact Nat.zero_le b
      · rw [h2]
        exact Nat.zero_le b
    | some n =>
      have hn := hball n hq
      by_cases hneg : n < 0
      · have h1 : (listEvents req w).1 =
            ⟨500, errBody "Value for argument \x22limit\x22 is not a valid integer."⟩ := by
          simp [listEvents, hq, hneg]
        have h2 : (listUsers req w).1 =
            ⟨500, errBody "Value for argument \x22limit\x22 is not a valid integer."⟩ := by
          simp [listUsers, hq, hneg]
        constructor
        · rw [h1]
          exact Nat.zero_le b
        · rw [h2]
          exact Nat.zero_le b
      · constructor
        · have h1 : listEvents req w = (⟨200, Json.obj
              [("count", Json.num (((w.events.mergeSort
                  (fun a b => b.2.createdAt ≤ a.2.createdAt)).take n.toNat).length : Int)),
               ("events", Json.arr (((w.events.mergeSort
                  (fun a b => b.2.createdAt ≤ a.2.createdAt)).take n.toNat).map
                  (fun p => eventJson p.1 p.2))),
               ("limit", Json.num n)]⟩, w) := by
            simp [listEvents, hq, hneg]
          rw [h1]
          rw [itemsCount_obj_events]
          simp only [List.length_map]
          exact le_trans (le_trans (List.length_take_le _ _) le_rfl) hn
        · have h1 : listUsers req w = (⟨200, Json.obj
              [("count", Json.num (((w.users.mergeSort
                  (fun a b => a.2.name ≤ b.2.name)).take n.toNat).length : Int)),
               ("users", Json.arr (((w.users.mergeSort
                  (fun a b => a.2.name ≤ b.2.name)).take n.toNat).map
                  (fun p => userJson p.1 p.2))),
               ("limit", Json.num n)]⟩, w) := by
            simp [listUsers, hq, hneg]
          rw [h1]
          rw [itemsCount_obj_users]
          simp only [List.length_map]
          exact le_trans (le_trans (List.length_take_le _ _) le_rfl) hn
  have h200 : ∀ n : Int, effLimit req.queryLimit = some n → n.toNat ≤ 200 := by
    intro n hn
    have := effLimit_le req.queryLimit n hn
    omega
  have h50 : req.queryLimit = none →
      ∀ n : Int, effLimit req.queryLimit = some n → n.toNat ≤ 50 := by
    intro hq n hn
    rw [hq] at hn
    have h5 : effLimit none = some 50 := by decide
    rw [h5] at hn
    have : n = 50 := by exact Option.some_injective _ hn.symm
    omega
  exact ⟨(hev 200 h200).1, (hev 200 h200).2,
    fun hqn => ⟨(hev 50 (h50 hqn)).1, (hev 50 (h50 hqn)).2⟩⟩

theorem claim6_limit_cap_witness :
    itemsCount (listEvents {} wEvt).1 "events" ≤ 200 ∧
    itemsCount (listEvents {} wEvt).1 "events" ≤ 50 :=
  ⟨(claim6_limit_cap {} wEvt).1, ((claim6_limit_cap {} wEvt).2.2 rfl).1⟩

/-! ### Owner denormalization -/

/-- From the spec's fallback wording: the part of the auth-token email
before the first "@" when an email is present, else "Unknown". -/
def nameFromEmail : Option String → String
  | some e => localPart e
  | none => "Unknown"

/-- The owner-name fallback chain as the spec words it: the trimmed stored
profile name if non-empty, else the trimmed auth-token name if non-empty,
else the local part of the auth-token email, else "Unknown". -/
def ownerNameSpec (ud : Option UserDoc) (tn te : Option String) : String :=
  let p := (ud.map (fun u => jsTrim u.name)).getD ""
  let t := (tn.map jsTrim).getD ""
  if p ≠ "" then p else if t ≠ "" then t else nameFromEmail te

/-- The owner-email fallback as the spec words it: the stored profile
email, else the auth-token email, else null. -/
def ownerEmailSpec (ud : Option UserDoc) (te : Option String) : Option String :=
  match ud with
  | some u => some u.email
  | none => te

theorem ownerNameOf_eq_spec (ud : Option UserDoc) (tn te : Option String)
    (hte : te ≠ some "") : ownerNameOf ud tn te = ownerNameSpec ud tn te := by
  unfold ownerNameOf ownerNameSpec nameFromEmail strOrNone
  cases ud with
  | none =>
    cases tn with
    | none =>
      cases te with
      | none => simp
      | some e =>
        have he : e ≠ "" := fun h => hte (by rw [h])
        simp [he]
    | some nm =>
      by_cases hnm : jsTrim nm = ""
      · cases te with
        | none => simp [hnm]
        | some e =>
          have he : e ≠ "" := fun h => hte (by rw [h])
          simp [hnm, he]
      · simp [hnm]
  | some u =>
    by_cases hu : jsTrim u.name = ""
    · cases tn with
      | none =>
        cases te with
        | none => simp [hu]
        | some e =>
          have he : e ≠ "" := fun h => hte (by rw [h])
          simp [hu, he]
      | some nm =>
        by_cases hnm : jsTrim nm = ""
        · cases te with
          | none => simp [hu, hnm]
          | some e =>
            have he : e ≠ "" := fun h => hte (by rw [h])
            simp [hu, hnm, he]
        · simp [hu, hnm]
    · simp [hu]

theorem ownerEmailOf_eq_spec (ud : Option UserDoc) (te : Option String)
    (hte : te ≠ some "") (hud : ∀ u, ud = some u → u.email ≠ "") :
    ownerEmailOf ud te = ownerEmailSpec ud te := by
  unfold ownerEmailOf ownerEmailSpec strOrNone
  cases ud with
  | none =>
    cases te with
    | none => simp
    | some e =>
      have he : e ≠ "" := fun h => hte (by rw [h])
      simp [he]
  | some u =>
    have hu : u.email ≠ "" := hud u rfl
    simp [hu]

/-- C7: the document stored by a successful event creation carries the
owner name given by the spec's fallback chain — trimmed profile name, else
trimmed token name, else local part of the token email, else "Unknown" —
and the owner email given by profile email, else token email, else null
(taking "present" in the JS truthy sense: the degenerate empty-string
email claim is excluded by hypothesis). -/
theorem claim7_owner_denormalization (ext : Ext) (user : AuthUser)
    (req : Request) (w : World)
    (ht : isNonEmptyString (field req "title") = true)
    (hfresh : getDoc w.events ext.newId = none)
    (hte : user.email ≠ some "")
    (hue : ∀ u, getDoc w.users user.uid = some u → u.email ≠ "") :
    ∃ d, getDoc (createEvent ext user req w).2.events ext.newId = some d ∧
      d.ownerName = ownerNameSpec (getDoc w.users user.uid) user.name user.email ∧
      d.ownerEmail = ownerEmailSpec (getDoc w.users user.uid) user.email ∧
      d.ownerUid = user.uid := by
  refine ⟨
    { title := jsTrim (asStr (field req "title")),
      location := optTrim (field req "location"),
      description := optTrim (field req "description"),
      imageUrl := optTrim (field req "imageUrl"),
      imageDeleteUrl := optTrim (field req "imageDeleteUrl"),
      ownerUid := user.uid,
      ownerName := ownerNameOf (getDoc w.users user.uid) user.name user.email,
      ownerEmail := ownerEmailOf (getDoc w.users user.uid) user.email,
      createdAt := ext.now, updatedAt := none },
    ?_, ownerNameOf_eq_spec _ _ _ hte, ownerEmailOf_eq_spec _ _ hte hue, rfl⟩
  have hc : (createEvent ext user req w).2.events = w.events ++
      [(ext.newId,
        { title := jsTrim (asStr (field req "title")),
          location := optTrim (field req "location"),
          description := optTrim (field req "description"),
          imageUrl := optTrim (field req "imageUrl"),
          imageDeleteUrl := optTrim (field req "imageDeleteUrl"),
          ownerUid := user.uid,
          ownerName := ownerNameOf (getDoc w.users user.uid) user.name user.email,
          ownerEmail := ownerEmailOf (getDoc w.users user.uid) user.email,
          createdAt := ext.now, updatedAt := none })] := by
    simp [createEvent, ht]
  rw [hc]
  exact getDoc_append_fresh _ _ _ hfresh

theorem claim7_owner_denormalization_witness :
    ∃ d, getDoc (createEvent extW ⟨"alice", none, none⟩
        { body := [("title", .jstr "Meetup")] } wUsers).2.events "e1" = some d ∧
      d.ownerName = ownerNameSpec (getDoc wUsers.users "alice") none none ∧
      d.ownerEmail = ownerEmailSpec (getDoc wUsers.users "alice") none ∧
      d.ownerUid = "alice" :=
  claim7_owner_denormalization extW ⟨"alice", none, none⟩
    { body := [("title", .jstr "Meetup")] } wUsers (by decide) (by decide)
    (by decide)
    (by
      intro u hu
      have h : u = (⟨"Alice", "a@x", 0, none⟩ : UserDoc) := by
        simpa [wUsers, getDoc] using hu.symm
      subst h
      decide)

/-! ### Registration conflict mapping -/

/-- C8: with valid inputs, registration yields 409 with body
`{error: "Email already exists"}` exactly when the thrown error carries
code auth/email-already-exists — which, given that the database write's
errors never carry that auth code, happens exactly when the auth service
reports a duplicate email; every other auth or database failure yields 500
with the underlying message. -/
theorem claim8_conflict_mapping (ext : Ext) (req : Request) (w : World)
    (hn : isNonEmptyString (field req "name") = true)
    (he : emailOk (field req "email") = true)
    (hp : passwordOk (field req "password") = true)
    (hdb : ∀ e, ext.setUserDoc = .error e →
      e.code ≠ some "auth/email-already-exists") :
    ((register ext req w).resp.status = 409 ↔
      ∃ e, ext.createUser (jsTrim (asStr (field req "email")))
          (asStr (field req "password")) (jsTrim (asStr (field req "name"))) =
          .error e ∧ e.code = some "auth/email-already-exists") ∧
    ((register ext req w).resp.status = 409 →
      (register ext req w).resp.body = errBody "Email already exists") ∧
    (∀ e, ext.createUser (jsTrim (asStr (field req "email")))
        (asStr (field req "password")) (jsTrim (asStr (field req "name"))) =
        .error e → e.code ≠ some "auth/email-already-exists" →
      (register ext req w).resp = ⟨500, errBody e.message⟩) ∧
    (∀ uid e, ext.createUser (jsTrim (asStr (field req "email")))
        (asStr (field req "password")) (jsTrim (asStr (field req "name"))) =
        .ok uid → ext.setUserDoc = .error e →
      (register ext req w).resp = ⟨500, errBody e.message⟩) := by
  cases hcu : ext.createUser (jsTrim (asStr (field req "email")))
      (asStr (field req "password")) (jsTrim (asStr (field req "name"))) with
  | error e =>
    by_cases hc : e.code = some "auth/email-already-exists"
    · have hr : register ext req w =
          ⟨⟨409, errBody "Email already exists"⟩, w, true⟩ := by
        simp [register, hn, he, hp, hcu, hc]
      refine ⟨⟨fun _ => ⟨e, rfl, hc⟩, fun _ => by rw [hr]⟩,
        fun _ => by rw [hr], ?_, ?_⟩
      · intro e' he' hc'
        injection he' with h
        subst h
        exact absurd hc hc'
      · intro uid e' hok _
        exact Except.noConfusion hok
    · have hr : register ext req w = ⟨caught e, w, true⟩ := by
        simp [register, hn, he, hp, hcu, hc]
      have hs : (register ext req w).resp.status = 500 := by
        rw [hr]
        rfl
      refine ⟨⟨fun h9 => ?_, fun hex => ?_⟩, fun h9 => ?_, ?_, ?_⟩
      · rw [hs] at h9
        exact absurd h9 (by decide)
      · obtain ⟨e', he', hc'⟩ := hex
        injection he' with h
        subst h
        exact absurd hc' hc
      · rw [hs] at h9
        exact absurd h9 (by decide)
      · intro e' he' _
        injection he' with h
        subst h
        rw [hr]
        rfl
      · intro uid e' hok _
        exact Except.noConfusion hok
  | ok uid =>
    cases hsd : ext.setUserDoc with
    | error e =>
      have hc := hdb e hsd
      have hr : register ext req w = ⟨caught e, w, true⟩ := by
        simp [register, hn, he, hp, hcu, hsd, hc]
      have hs : (register ext req w).resp.status = 500 := by
        rw [hr]
        rfl
      refine ⟨⟨fun h9 => ?_, fun hex => ?_⟩, fun h9 => ?_, ?_, ?_⟩
      · rw [hs] at h9
        exact absurd h9 (by decide)
      · obtain ⟨e', he', _⟩ := hex
        exact Except.noConfusion he'
      · rw [hs] at h9
        exact absurd h9 (by decide)
      · intro e' he' _
        exact Except.noConfusion he'
      · intro uid' e' _ hsd'
        injection hsd' with h
        subst h
        rw [hr]
        rfl
    | ok _ =>
      have hs : (register ext req w).resp.status = 201 := by
        simp [register, hn, he, hp, hcu, hsd]
      refine ⟨⟨fun h9 => ?_, fun hex => ?_⟩, fun h9 => ?_, ?_, ?_⟩
      · rw [hs] at h9
        exact absurd h9 (by decide)
      · obtain ⟨e', he', _⟩ := hex
        exact Except.noConfusion he'
      · rw [hs] at h9
        exact absurd h9 (by decide)
      · intro e' he' _
        exact Except.noConfusion he'
      · intro uid' e' _ hsd'
        exact Except.noConfusion hsd'

/-- External collaborators whose account creation always reports a
duplicate email. -/
def extDup : Ext :=
  { extW with
    createUser := fun _ _ _ => .error ⟨some "auth/email-already-exists", "exists"⟩ }

/-- A well-formed registration request body. -/
def reqReg : Request :=
  { body := [("name", .jstr "Ann"), ("email", .jstr "ann@x.com"),
    ("password", .jstr "secret1")] }

theorem claim8_conflict_mapping_witness :
    (register extDup reqReg ⟨[], []⟩).resp.status = 409 :=
  (claim8_conflict_mapping extDup reqReg ⟨[], []⟩
    (by decide) (by decide) (by decide)
    (by intro e he; simp [extDup, extW] at he)).1.mpr
    ⟨⟨some "auth/email-already-exists", "exists"⟩, rfl, rfl⟩

end E4E
